import Mathlib

/-
Verification development for the ZenCube process-sandbox supervisor
(sandbox.c and sandbox_v2.c), via a shallow embedding in Lean 4.

Conventions of the embedding:
* C strings are modelled as lists of characters (CStr).
* Machine integers are modelled as Int; the values involved stay far from
  any overflow boundary, and the source performs no wrapping arithmetic
  on them.
* Kernel interactions (setrlimit, prctl, clock_gettime, realpath, stat,
  access, waitpid) are modelled by explicit oracles passed as arguments;
  syscall side effects of the child and parent are recorded in explicit
  event traces.
* Doubles used only for reporting elapsed time are modelled as rationals.
-/

namespace ZenCube

/-- A C string, modelled as its list of characters (terminator omitted). -/
abbrev CStr := List Char

/-- Model of struct timespec: seconds and nanoseconds. -/
structure Timespec where
  tv_sec : Int
  tv_nsec : Int
deriving DecidableEq, Repr

/-- timespec_diff from sandbox.c / sandbox_v2.c:
(end.tv_sec - start.tv_sec) + (end.tv_nsec - start.tv_nsec) / 1e9,
with the C double modelled as a rational. -/
def timespec_diff (s e : Timespec) : ℚ :=
  ((e.tv_sec - s.tv_sec : Int) : ℚ) + ((e.tv_nsec - s.tv_nsec : Int) : ℚ) / 1000000000

namespace Sandbox

/-- Model of the character classification used by C atoi for leading
whitespace (the isspace set in the C locale). -/
def isSpaceChar (c : Char) : Bool :=
  c = ' ' || c = '\t' || c = '\n' || c = '\x0b' || c = '\x0c' || c = '\r'

/-- Accumulate the value of the leading decimal digits of a character
list, stopping at the first non-digit (the digit-consuming loop of C
atoi / atol). -/
def atoiDigits : CStr → Nat → Nat
  | [], acc => acc
  | c :: cs, acc =>
    if c.isDigit then atoiDigits cs (10 * acc + (c.toNat - 48)) else acc

/-- Model of C atoi (and atol, which the source uses identically): skip
leading whitespace, read an optional sign, then the longest run of
decimal digits; a string with no leading digits yields 0.  Overflow is
not modelled; the source only ever compares the result against 0. -/
def atoi (s : CStr) : Int :=
  match s.dropWhile isSpaceChar with
  | '-' :: cs => -(atoiDigits cs 0 : Int)
  | '+' :: cs => (atoiDigits cs 0 : Int)
  | cs => (atoiDigits cs 0 : Int)

/-- ResourceLimits from sandbox.c. -/
structure ResourceLimits where
  cpu_seconds : Int
  memory_mb : Int
  max_processes : Int
  max_file_mb : Int
deriving DecidableEq, Repr

/-- PATH_MAX on Linux, the size of the jail_path buffer in main. -/
def PATH_MAX : Nat := 4096

/-- The mutable state threaded through the option loop of
parse_arguments: the limits plus the jail and network flags. -/
structure ParseState where
  limits : ResourceLimits
  jail_enabled : Bool
  jail_path : CStr
  disable_network : Bool
deriving DecidableEq, Repr

/-- Outcome of parse_arguments: success returns the final state and the
remaining tokens (target_argv, i.e. argv from cmd_start_index on);
err carries the stderr diagnostic; helpExit is the exit(EXIT_SUCCESS)
taken on --help. -/
inductive ParseResult where
  | ok (st : ParseState) (target : List CStr)
  | err (msg : String)
  | helpExit
deriving DecidableEq, Repr

/-- The option-scanning while loop of parse_arguments in sandbox.c,
processing argv[1..] one token at a time.  Each branch mirrors one
strcmp / strncmp branch of the source, in source order. -/
def parse_options_loop : List CStr → ParseState → ParseResult
  | [], st => .ok st []
  | tok :: rest, st =>
    if tok.head? ≠ some '-' then
      -- loop guard argv[i][0] == '-' failed: tokens from here are the command
      .ok st (tok :: rest)
    else if tok = "--".toList then
      .ok st rest
    else if tok = "--help".toList then
      .helpExit
    else if "--cpu=".toList.isPrefixOf tok then
      let v := atoi (tok.drop 6)
      if v < 0 then .err "Invalid CPU limit"
      else parse_options_loop rest { st with limits.cpu_seconds := v }
    else if "--mem=".toList.isPrefixOf tok then
      let v := atoi (tok.drop 6)
      if v < 0 then .err "Invalid memory limit"
      else parse_options_loop rest { st with limits.memory_mb := v }
    else if "--procs=".toList.isPrefixOf tok then
      let v := atoi (tok.drop 8)
      if v < 0 then .err "Invalid process limit"
      else parse_options_loop rest { st with limits.max_processes := v }
    else if "--fsize=".toList.isPrefixOf tok then
      let v := atoi (tok.drop 8)
      if v < 0 then .err "Invalid file size limit"
      else parse_options_loop rest { st with limits.max_file_mb := v }
    else if "--jail=".toList.isPrefixOf tok then
      let path := tok.drop 7
      if path.length = 0 then .err "jail requires a non-empty path"
      else if PATH_MAX ≤ path.length then .err "Jail path is too long"
      else parse_options_loop rest { st with jail_enabled := true, jail_path := path }
    else if tok = "--no-net".toList then
      parse_options_loop rest { st with disable_network := true }
    else
      .err "Unknown option"

/-- The initial state set up at the top of parse_arguments: all limits
zero, jail and network flags cleared, empty jail path. -/
def initial_parse_state : ParseState :=
  { limits := { cpu_seconds := 0, memory_mb := 0, max_processes := 0, max_file_mb := 0 }
    jail_enabled := false
    jail_path := []
    disable_network := false }

/-- parse_arguments from sandbox.c, applied to argv[1..] (the tokens
after the program name): initialise the state, then run the option
loop. -/
def parse_arguments (args : List CStr) : ParseResult :=
  parse_options_loop args initial_parse_state

/-- The four kernel resources touched by apply_resource_limits:
RLIMIT_CPU, RLIMIT_AS, RLIMIT_NPROC, RLIMIT_FSIZE. -/
inductive Resource where
  | cpu
  | addressSpace
  | nproc
  | fsize
deriving DecidableEq, Repr

/-- Observable actions of the child process between fork and exec
(and the terminal exec or exit). -/
inductive ChildEvent where
  | setLimit (res : Resource) (soft hard : Int)
  | chdirTo (path : CStr)
  | chrootTo (arg : CStr)
  | setNoNewPrivs
  | installSeccompFilter
  | warnNetworkFilter
  | execvp (argv : List CStr)
  | exitWith (code : Int)
deriving DecidableEq, Repr

/-- The sequence of conditional setrlimit calls made by
apply_resource_limits, in source order: each entry is the guard of the
if, the resource, and the value installed as both soft and hard limit
(megabyte fields are scaled by 1024 * 1024). -/
def limit_plan (l : ResourceLimits) : List (Bool × Resource × Int) :=
  [ (decide (0 < l.cpu_seconds), Resource.cpu, l.cpu_seconds),
    (decide (0 < l.memory_mb), Resource.addressSpace, l.memory_mb * 1048576),
    (decide (0 < l.max_processes), Resource.nproc, l.max_processes),
    (decide (0 < l.max_file_mb), Resource.fsize, l.max_file_mb * 1048576) ]

/-- Run a sequence of conditional setrlimit calls against an oracle
telling which setrlimit calls succeed; the first failing call aborts
the sequence (apply_resource_limits returns -1 at the first failure).
Returns the trace of attempted setLimit calls and whether all
succeeded. -/
def run_limit_plan : List (Bool × Resource × Int) → (Resource → Bool) → List ChildEvent × Bool
  | [], _ => ([], true)
  | (cond, res, v) :: rest, ok =>
    if cond then
      if ok res then
        let tail := run_limit_plan rest ok
        (ChildEvent.setLimit res v v :: tail.1, tail.2)
      else
        ([ChildEvent.setLimit res v v], false)
    else
      run_limit_plan rest ok

/-- apply_resource_limits from sandbox.c: for each non-zero field set
soft and hard limits to the same value, in the order CPU, memory
(MB scaled to bytes), processes, file size (MB scaled to bytes);
return failure as soon as one setrlimit call fails. -/
def apply_resource_limits (l : ResourceLimits) (ok : Resource → Bool) :
    List ChildEvent × Bool :=
  run_limit_plan (limit_plan l) ok

/-- setup_chroot_jail from sandbox.c: chdir into the jail, chroot to
the current directory, then chdir to the new root; each primitive is
attempted only if the previous one succeeded, and any failure makes
the helper fail.  (This function is defined in sandbox.c but has no
caller there; see the theorem for claim C1.) -/
def setup_chroot_jail (jail_path : CStr) (chdirJailOk chrootOk chdirRootOk : Bool) :
    List ChildEvent × Bool :=
  if ¬ chdirJailOk then
    ([ChildEvent.chdirTo jail_path], false)
  else if ¬ chrootOk then
    ([ChildEvent.chdirTo jail_path, ChildEvent.chrootTo ".".toList], false)
  else if ¬ chdirRootOk then
    ([ChildEvent.chdirTo jail_path, ChildEvent.chrootTo ".".toList,
      ChildEvent.chdirTo "/".toList], false)
  else
    ([ChildEvent.chdirTo jail_path, ChildEvent.chrootTo ".".toList,
      ChildEvent.chdirTo "/".toList], true)

/-- One classic BPF instruction of the subset used by the seccomp
filter in apply_network_seccomp: load of seccomp_data.nr, a
jump-if-equal on a constant, and a return of a constant. -/
inductive SockFilter where
  | ldAbsNr
  | jeqK (k : Nat) (jt jf : Nat)
  | retK (k : Nat)
deriving DecidableEq, Repr

/-- SECCOMP_RET_ERRNO action tag. -/
def SECCOMP_RET_ERRNO : Nat := 0x00050000

/-- SECCOMP_RET_ALLOW action tag. -/
def SECCOMP_RET_ALLOW : Nat := 0x7fff0000

/-- errno EPERM. -/
def EPERM : Nat := 1

/-- Linux x86_64 syscall numbers for the six denied syscalls. -/
def NR_socket : Nat := 41
def NR_connect : Nat := 42
def NR_sendto : Nat := 44
def NR_sendmsg : Nat := 46
def NR_recvfrom : Nat := 45
def NR_recvmsg : Nat := 47

/-- The return word of each ZC_DENY_SYSCALL arm:
SECCOMP_RET_ERRNO with the low 12 bits of EPERM. -/
def denyRet : Nat := SECCOMP_RET_ERRNO ||| (EPERM &&& 0xFFF)

/-- filter_program from apply_network_seccomp in sandbox.c: load the
syscall number, then for each of socket, connect, sendto, sendmsg,
recvfrom, recvmsg (in source order) a jump-if-equal whose true branch
falls into a deny return, and a final default-allow return.  Each
ZC_DENY_SYSCALL expands to the pair jeqK nr 0 1 followed by
retK denyRet. -/
def filter_program : List SockFilter :=
  [ SockFilter.ldAbsNr,
    SockFilter.jeqK NR_socket 0 1, SockFilter.retK denyRet,
    SockFilter.jeqK NR_connect 0 1, SockFilter.retK denyRet,
    SockFilter.jeqK NR_sendto 0 1, SockFilter.retK denyRet,
    SockFilter.jeqK NR_sendmsg 0 1, SockFilter.retK denyRet,
    SockFilter.jeqK NR_recvfrom 0 1, SockFilter.retK denyRet,
    SockFilter.jeqK NR_recvmsg 0 1, SockFilter.retK denyRet,
    SockFilter.retK SECCOMP_RET_ALLOW ]

/-- Interpreter for the BPF subset, over the suffix of the program
that remains to execute: the accumulator is loaded from the syscall
number by ldAbsNr, jeqK skips jt or jf following instructions, retK
yields the action word.  None means the program ran off its end
(cannot happen for filter_program, which always returns). -/
def runFilter : List SockFilter → Nat → Nat → Option Nat
  | [], _, _ => none
  | SockFilter.ldAbsNr :: rest, nr, _ => runFilter rest nr nr
  | SockFilter.jeqK k jt jf :: rest, nr, acc =>
    runFilter (rest.drop (if acc = k then jt else jf)) nr acc
  | SockFilter.retK k :: _, _, _ => some k
termination_by l _ _ => l.length
decreasing_by
  · simp
  · simp only [List.length_drop, List.length_cons]
    omega

/-- The verdict of the installed seccomp filter on a syscall number:
run the program with an arbitrary initial accumulator (the first
instruction overwrites it). -/
def seccompVerdict (nr : Nat) : Option Nat :=
  runFilter filter_program nr 0

/-- apply_network_seccomp from sandbox.c: set PR_SET_NO_NEW_PRIVS,
then install the filter with PR_SET_SECCOMP; if the first prctl fails
the second is not attempted; the function fails if either prctl
fails.  The two oracle booleans give the success of the two prctl
calls. -/
def apply_network_seccomp (nnpOk filterOk : Bool) : List ChildEvent × Bool :=
  if nnpOk then
    if filterOk then
      ([ChildEvent.setNoNewPrivs, ChildEvent.installSeccompFilter], true)
    else
      ([ChildEvent.setNoNewPrivs, ChildEvent.installSeccompFilter], false)
  else
    ([ChildEvent.setNoNewPrivs], false)

/-- The child branch of main in sandbox.c, from just after fork to the
exec (or the exit that replaces it): apply the resource limits (any
failure exits with EXIT_FAILURE before exec); if disable_network is
set, attempt the seccomp filter and on failure only log a warning and
continue; finally execvp the target (exec failure exits with
EXIT_FAILURE).  The jail parameters are those main has in scope; note
that the child branch never consults them. -/
def child_branch (l : ResourceLimits) (jail_enabled : Bool) (jail_path : CStr)
    (disable_network : Bool) (target : List CStr)
    (rlimOk : Resource → Bool) (nnpOk filterOk execOk : Bool) : List ChildEvent :=
  let rl := apply_resource_limits l rlimOk
  if rl.2 then
    let net :=
      if disable_network then
        let ns := apply_network_seccomp nnpOk filterOk
        ns.1 ++ (if ns.2 then [] else [ChildEvent.warnNetworkFilter])
      else []
    rl.1 ++ net ++
      (ChildEvent.execvp target ::
        (if execOk then [] else [ChildEvent.exitWith 1]))
  else
    rl.1 ++ [ChildEvent.exitWith 1]

/-- Environment oracle for the pre-fork jail validation in main:
the result of realpath, whether stat succeeds, whether the stat says
directory, and whether access(X_OK) succeeds. -/
structure JailEnv where
  realpathResult : Option CStr
  statOk : Bool
  statIsDir : Bool
  accessXOk : Bool
deriving DecidableEq, Repr

/-- The stderr diagnostics main can emit before fork; the jail
diagnostics carry the path interpolated into the C format string. -/
inductive Diag where
  | parseError (msg : String)
  | noCommand
  | unableToResolveJail (path : CStr)
  | cannotStatJail (path : CStr)
  | jailNotDirectory (path : CStr)
  | jailNotAccessible (path : CStr)
deriving DecidableEq, Repr

/-- The path a diagnostic mentions (interpolated by its %s), if any. -/
def Diag.mentionedPath : Diag → Option CStr
  | .parseError _ => none
  | .noCommand => none
  | .unableToResolveJail p => some p
  | .cannotStatJail p => some p
  | .jailNotDirectory p => some p
  | .jailNotAccessible p => some p

/-- Outcome of main in sandbox.c up to (and excluding) fork:
usage exit for --help, a pre-fork EXIT_FAILURE with a diagnostic, or
reaching the fork with the validated policy.  The jail path carried by
forkReached is the one in the jail_path buffer at fork time (the
realpath-resolved path when the jail is enabled). -/
inductive PreFork where
  | usageExitZero
  | failBeforeFork (d : Diag)
  | forkReached (l : ResourceLimits) (jail_enabled : Bool) (jail_path : CStr)
      (disable_network : Bool) (target : List CStr)
deriving DecidableEq, Repr

/-- Whether a pre-fork outcome creates a child process. -/
def PreFork.spawnsChild : PreFork → Bool
  | .forkReached _ _ _ _ _ => true
  | _ => false

/-- main in sandbox.c from entry to the fork call: parse the
arguments (printing usage and failing on a parse error), fail if no
command remains, then, when a jail was requested, canonicalise the
path with realpath, copy the resolved path back into the jail_path
buffer, stat it, require a directory, and require X_OK access; any
failure returns EXIT_FAILURE before fork. -/
def main_prefork (args : List CStr) (env : JailEnv) : PreFork :=
  match parse_arguments args with
  | .err m => .failBeforeFork (.parseError m)
  | .helpExit => .usageExitZero
  | .ok st target =>
    if target = [] then
      .failBeforeFork .noCommand
    else if st.jail_enabled then
      match env.realpathResult with
      | none => .failBeforeFork (.unableToResolveJail st.jail_path)
      | some resolved =>
        if ¬ env.statOk then
          .failBeforeFork (.cannotStatJail resolved)
        else if ¬ env.statIsDir then
          .failBeforeFork (.jailNotDirectory resolved)
        else if ¬ env.accessXOk then
          .failBeforeFork (.jailNotAccessible resolved)
        else
          .forkReached st.limits true resolved st.disable_network target
    else
      .forkReached st.limits false st.jail_path st.disable_network target

/-- Signal numbers used by the sources (Linux x86_64). -/
def SIGKILL : Int := 9
def SIGXCPU : Int := 24
def SIGXFSZ : Int := 25

/-- Decoded wait status word, abstracting the WIFEXITED / WIFSIGNALED /
WIFSTOPPED macros; unknown covers a status word matching none of the
three. -/
inductive Status where
  | exited (code : Int)
  | signaled (sig : Int) (coreDumped : Bool)
  | stopped (sig : Int)
  | unknown (raw : Int)
deriving DecidableEq, Repr

/-- The terminating signal of a status, if it was a signalled
termination. -/
def Status.termSig : Status → Option Int
  | .signaled sig _ => some sig
  | _ => none

/-- The notes the sandbox.c parent logs in its signal branch: which
resource-limit violation messages accompany a given terminating
signal.  SIGXCPU logs the CPU violation; SIGKILL logs the
possibly-memory message unconditionally plus the configured memory
limit when it is non-zero; SIGXFSZ logs the file-size violation plus
the configured limit when non-zero.  sandbox.c records no violation
flags, only these log lines. -/
inductive SigNote where
  | cpuLimitViolated
  | killedPossiblyMemory
  | memoryLimitWas (mb : Int)
  | fileSizeLimitViolated
  | fileSizeLimitWas (mb : Int)
deriving DecidableEq, Repr

/-- The signal-branch logging of main in sandbox.c (lines 473-487). -/
def signal_notes (sig : Int) (l : ResourceLimits) : List SigNote :=
  if sig = SIGXCPU then
    [SigNote.cpuLimitViolated]
  else if sig = SIGKILL then
    SigNote.killedPossiblyMemory ::
      (if 0 < l.memory_mb then [SigNote.memoryLimitWas l.memory_mb] else [])
  else if sig = SIGXFSZ then
    SigNote.fileSizeLimitViolated ::
      (if 0 < l.max_file_mb then [SigNote.fileSizeLimitWas l.max_file_mb] else [])
  else []

/-- The parent return value of main in sandbox.c once waitpid has
succeeded: the child exit code on a normal exit, EXIT_FAILURE (1) on
a signalled, stopped or unknown status. -/
def parent_exit_code (status : Status) : Int :=
  match status with
  | .exited code => code
  | .signaled _ _ => 1
  | .stopped _ => 1
  | .unknown _ => 1

/-- The execution_time computation of the sandbox.c parent.
startRead and endRead are the results of the two clock_gettime calls
(none = the call failed); stack_garbage models the uninitialised
start_time local that remains in use when the start read fails (the
source only logs a warning in that case).  A failed end read sets
execution_time to -1.0, modelled as none here since every later use is
guarded by execution_time >= 0. -/
def parent_execution_time (startRead endRead : Option Timespec)
    (stack_garbage : Timespec) : Option ℚ :=
  let start_time := startRead.getD stack_garbage
  match endRead with
  | none => none
  | some e => some (timespec_diff start_time e)

/-- What the parent reports as the execution time: the log line is
printed only when execution_time >= 0, so a negative difference is
also silent. -/
def reported_execution_time (startRead endRead : Option Timespec)
    (stack_garbage : Timespec) : Option ℚ :=
  match parent_execution_time startRead endRead stack_garbage with
  | none => none
  | some q => if 0 ≤ q then some q else none

end Sandbox

namespace SandboxV2

open ZenCube.Sandbox (Status SIGKILL SIGXCPU SIGXFSZ)

/-- sandbox_config_t from sandbox_v2.c (the command vector is carried
separately by the run model). -/
structure sandbox_config_t where
  cpu_limit_seconds : Int
  memory_limit_mb : Int
  timeout_seconds : Int
  json_output : Bool
deriving DecidableEq, Repr

/-- sandbox_result_t from sandbox_v2.c.  The int flags of the C struct
are modelled as booleans.  There is no file-size flag in this
structure. -/
structure sandbox_result_t where
  exit_code : Int
  terminated_by_signal : Bool
  signal_number : Int
  execution_time : ℚ
  cpu_limit_exceeded : Bool
  memory_limit_exceeded : Bool
  timeout_exceeded : Bool
deriving DecidableEq, Repr

/-- The result as initialised at the top of run_sandbox. -/
def initial_result : sandbox_result_t :=
  { exit_code := -1
    terminated_by_signal := false
    signal_number := 0
    execution_time := 0
    cpu_limit_exceeded := false
    memory_limit_exceeded := false
    timeout_exceeded := false }

/-- Outcome of one WNOHANG waitpid poll: still running (0), reaped
with a status (> 0), or error (-1). -/
inductive PollResult where
  | running
  | reaped (st : Status)
  | pollError
deriving DecidableEq, Repr

/-- Parent-side observable actions of run_sandbox while waiting. -/
inductive ParentEvent where
  | pollNonBlocking (i : Nat)
  | sleepOneSecond
  | killChild (sig : Int)
  | reapBlocking
deriving DecidableEq, Repr

/-- The timeout polling loop of run_sandbox: starting at iteration
count with fuel steps remaining before the bound, poll with WNOHANG;
a reaped child exits the loop with its status, a waitpid error aborts
run_sandbox, and a still-running child sleeps one second and retries.
Returns: ok (some st) when the child was reaped in the loop, ok none
when the count reached the bound with the child still running, error
on waitpid failure; paired with the event trace. -/
def poll_loop (polls : Nat → PollResult) (count : Nat) :
    Nat → Except Unit (Option Status) × List ParentEvent
  | 0 => (Except.ok none, [])
  | fuel + 1 =>
    match polls count with
    | .reaped st => (Except.ok (some st), [ParentEvent.pollNonBlocking count])
    | .pollError => (Except.error (), [ParentEvent.pollNonBlocking count])
    | .running =>
      let tail := poll_loop polls (count + 1) fuel
      (tail.1, ParentEvent.pollNonBlocking count :: ParentEvent.sleepOneSecond :: tail.2)

/-- The status-analysis tail of run_sandbox (lines 355-378): a normal
exit records the exit code; a signalled termination records the signal
and sets cpu_limit_exceeded exactly for SIGXCPU (the SIGKILL-with-
timeout case is explicitly left as already marked); stopped or unknown
statuses change nothing. -/
def analyze_status (st : Status) (r : sandbox_result_t) : sandbox_result_t :=
  match st with
  | .exited code => { r with exit_code := code }
  | .signaled sig _ =>
    let r1 := { r with terminated_by_signal := true, signal_number := sig }
    if sig = SIGXCPU then { r1 with cpu_limit_exceeded := true } else r1
  | _ => r

/-- Environment oracle for one run of run_sandbox: the WNOHANG poll
outcomes, whether the no-timeout blocking waitpid succeeds and what
status it yields, the status delivered by the post-kill blocking
waitpid (whose return value the source does not check), and the two
clock reads. -/
structure RunEnv where
  polls : Nat → PollResult
  blockingWaitOk : Bool
  blockingStatus : Status
  reapAfterKillStatus : Status
  startClock : Option Timespec
  endClock : Option Timespec
  startGarbage : Timespec

/-- The wait-for-child part of run_sandbox (lines 307-343): with a
positive timeout, run the 1-second WNOHANG polling loop; if it ends
with the child still running, set timeout_exceeded, send SIGKILL and
reap with a blocking waitpid (whose return value the source does not
check); without a timeout, block in waitpid directly.  error models
the early return -1 on waitpid failure. -/
def wait_phase (config : sandbox_config_t) (env : RunEnv) :
    Except Unit (sandbox_result_t × Status × List ParentEvent) :=
  if 0 < config.timeout_seconds then
    let res := poll_loop env.polls 0 config.timeout_seconds.toNat
    match res.1 with
    | .error _ => .error ()
    | .ok (some st) => .ok (initial_result, st, res.2)
    | .ok none =>
      .ok ({ initial_result with timeout_exceeded := true }, env.reapAfterKillStatus,
        res.2 ++ [ParentEvent.killChild SIGKILL, ParentEvent.reapBlocking])
  else
    if env.blockingWaitOk then
      .ok (initial_result, env.blockingStatus, [ParentEvent.reapBlocking])
    else
      .error ()

/-- The end-time bookkeeping of run_sandbox (lines 346-352): when the
end clock read succeeds the execution time is computed with
timespec_diff; like sandbox.c, a failed start read earlier only logged
a warning and left start_time uninitialised (startGarbage), which is
still used here. -/
def set_execution_time (r : sandbox_result_t) (env : RunEnv) : sandbox_result_t :=
  match env.endClock with
  | some e =>
    { r with execution_time :=
        timespec_diff (env.startClock.getD env.startGarbage) e }
  | none => r

/-- The wait-and-classify part of run_sandbox from sandbox_v2.c, from
just after fork to the filled-in result.  error models the early
return -1 on waitpid failure (after which main exits EXIT_FAILURE and
no JSON result is emitted). -/
def run_sandbox (config : sandbox_config_t) (env : RunEnv) :
    Except Unit (sandbox_result_t × List ParentEvent) :=
  match wait_phase config env with
  | .error _ => .error ()
  | .ok (r1, st, tr) => .ok (analyze_status st (set_execution_time r1 env), tr)

/-- The success field computed inline in log_json_result:
exit_code == 0 and not terminated_by_signal; the limit_exceeded flags
are not consulted. -/
def json_success (r : sandbox_result_t) : Bool :=
  (r.exit_code == 0) && (! r.terminated_by_signal)

/-- The exit code of main in sandbox_v2.c after a successful
run_sandbox: EXIT_FAILURE when the child was signalled or exited
non-zero, EXIT_SUCCESS otherwise. -/
def main_exit_code (r : sandbox_result_t) : Int :=
  if r.terminated_by_signal || r.exit_code != 0 then 1 else 0

/-- The whole of main in sandbox_v2.c as an exit-code function: a
parse failure or a run_sandbox failure exits EXIT_FAILURE, otherwise
the result decides the code as in main_exit_code. -/
def main_overall_exit (parseOk : Bool) (run : Except Unit sandbox_result_t) : Int :=
  if parseOk then
    match run with
    | .error _ => 1
    | .ok r => main_exit_code r
  else 1

end SandboxV2

/-- Whether a child event is one of the jail-entering primitives
(chdir or chroot). -/
def Sandbox.ChildEvent.isJailStep : Sandbox.ChildEvent → Bool
  | .chdirTo _ => true
  | .chrootTo _ => true
  | _ => false

/-- Whether a child event is the exec of the target. -/
def Sandbox.ChildEvent.isExec : Sandbox.ChildEvent → Bool
  | .execvp _ => true
  | _ => false

/-- The value apply_resource_limits installs for each kernel resource:
the corresponding policy field, with the megabyte fields scaled by
2^20. -/
def Sandbox.field_value (l : Sandbox.ResourceLimits) : Sandbox.Resource → Int
  | .cpu => l.cpu_seconds
  | .addressSpace => l.memory_mb * 1048576
  | .nproc => l.max_processes
  | .fsize => l.max_file_mb * 1048576

/-- Claim C1 (code bug): on a run with a validated jail
(here the usage example, jail path /opt/dev_jail, cpu limit 2,
target /bin/pwd, every primitive succeeding), the child branch of
sandbox.c applies the resource limits and execs the target without
ever performing a chdir or chroot: setup_chroot_jail, which does
implement the claimed chdir-into-jail / chroot-of-current-directory /
chdir-to-root sequence, has no caller, so the jail is never entered
before exec, contradicting the claim and the repository
documentation. -/
theorem C1_child_never_enters_jail :
    Sandbox.setup_chroot_jail "/opt/dev_jail".toList true true true =
      ([Sandbox.ChildEvent.chdirTo "/opt/dev_jail".toList,
        Sandbox.ChildEvent.chrootTo ".".toList,
        Sandbox.ChildEvent.chdirTo "/".toList], true)
    ∧ Sandbox.child_branch
        { cpu_seconds := 2, memory_mb := 0, max_processes := 0, max_file_mb := 0 }
        true "/opt/dev_jail".toList false ["/bin/pwd".toList]
        (fun _ => true) true true true =
      [Sandbox.ChildEvent.setLimit Sandbox.Resource.cpu 2 2,
       Sandbox.ChildEvent.execvp ["/bin/pwd".toList]]
    ∧ (Sandbox.child_branch
        { cpu_seconds := 2, memory_mb := 0, max_processes := 0, max_file_mb := 0 }
        true "/opt/dev_jail".toList false ["/bin/pwd".toList]
        (fun _ => true) true true true).any Sandbox.ChildEvent.isJailStep = false
    ∧ (Sandbox.child_branch
        { cpu_seconds := 2, memory_mb := 0, max_processes := 0, max_file_mb := 0 }
        true "/opt/dev_jail".toList false ["/bin/pwd".toList]
        (fun _ => true) true true true).any Sandbox.ChildEvent.isExec = true := by
  refine ⟨rfl, rfl, rfl, rfl⟩

/-- Claim C5 (counterexample): the non-numeric value in --cpu=abc does
not make the parser fail; atoi coerces it to 0 and parsing succeeds
with all limits zero and target /bin/ls, so a malformed non-numeric
value produces no diagnostic, contrary to the claim. -/
theorem C5_nonnumeric_value_accepted :
    Sandbox.parse_arguments ["--cpu=abc".toList, "/bin/ls".toList] =
      Sandbox.ParseResult.ok
        { limits := { cpu_seconds := 0, memory_mb := 0, max_processes := 0, max_file_mb := 0 }
          jail_enabled := false
          jail_path := []
          disable_network := false }
        ["/bin/ls".toList] := by
  rfl

/-- Claim C10 (code bug): when the start clock read fails but the end
read succeeds, sandbox.c only logs a warning and then computes
execution_time from the uninitialised start_time stack value; with
stack garbage 5 s and an end reading of 100 s it reports a fabricated
elapsed time of 95 s instead of reporting elapsed as unavailable.
(The second conjunct shows the end-read failure, the only case the
code handles, is indeed reported as unavailable.) -/
theorem C10_fabricated_elapsed_on_start_clock_failure :
    Sandbox.reported_execution_time none (some { tv_sec := 100, tv_nsec := 0 })
      { tv_sec := 5, tv_nsec := 0 } = some 95
    ∧ Sandbox.reported_execution_time (some { tv_sec := 0, tv_nsec := 0 }) none
      { tv_sec := 7, tv_nsec := 3 } = none := by
  constructor
  · show ite _ _ _ = _
    norm_num [Sandbox.reported_execution_time, Sandbox.parent_execution_time,
      timespec_diff]
  · rfl

/-- Claim C2 (counterexample): a sandbox_v2 run whose child is
terminated by the uncatchable kill signal (SIGKILL, 9) under a
non-zero memory limit (256 MB) leaves memory_limit_exceeded false:
run_sandbox never sets the memory flag, contrary to the claim. -/
theorem C2_sigkill_with_memory_limit_sets_no_flag :
    (SandboxV2.run_sandbox
        { cpu_limit_seconds := 0, memory_limit_mb := 256, timeout_seconds := 0,
          json_output := true }
        { polls := fun _ => SandboxV2.PollResult.running
          blockingWaitOk := true
          blockingStatus := Sandbox.Status.signaled 9 false
          reapAfterKillStatus := Sandbox.Status.exited 0
          startClock := none
          endClock := none
          startGarbage := { tv_sec := 0, tv_nsec := 0 } }).map
      (fun p => (p.1.memory_limit_exceeded, p.1.signal_number, p.1.terminated_by_signal)) =
      Except.ok (false, 9, true) := by
  rfl

/-- Claim C3 (counterexample): in sandbox_v2, a child that exits
normally with code 7 (no signal, no flag) makes the supervisor exit
with EXIT_FAILURE = 1, not with 7: the child exit code is not
propagated, contrary to the claim. -/
theorem C3_v2_exit_code_not_propagated :
    (SandboxV2.run_sandbox
        { cpu_limit_seconds := 0, memory_limit_mb := 0, timeout_seconds := 0,
          json_output := true }
        { polls := fun _ => SandboxV2.PollResult.running
          blockingWaitOk := true
          blockingStatus := Sandbox.Status.exited 7
          reapAfterKillStatus := Sandbox.Status.exited 0
          startClock := none
          endClock := none
          startGarbage := { tv_sec := 0, tv_nsec := 0 } }).map
      (fun p => (p.1.exit_code, p.1.terminated_by_signal, SandboxV2.main_exit_code p.1)) =
      Except.ok (7, false, 1)
    ∧ (1 : Int) ≠ 7 := by
  exact ⟨rfl, by decide⟩

/-- Claim C4 (counterexample): with a 1-second timeout and a child
still running at the poll, sandbox_v2 sets timeout_exceeded and sends
SIGKILL; if the blocking reap then observes a normal exit with code 0
(the child exited just before the kill landed), log_json_result emits
success = true even though the timeout_exceeded flag is set, because
the success expression only tests exit_code and terminated_by_signal
and never consults the violation flags, contrary to the claim. -/
theorem C4_success_true_with_timeout_flag :
    (SandboxV2.run_sandbox
        { cpu_limit_seconds := 0, memory_limit_mb := 0, timeout_seconds := 1,
          json_output := true }
        { polls := fun _ => SandboxV2.PollResult.running
          blockingWaitOk := true
          blockingStatus := Sandbox.Status.exited 0
          reapAfterKillStatus := Sandbox.Status.exited 0
          startClock := none
          endClock := none
          startGarbage := { tv_sec := 0, tv_nsec := 0 } }).map
      (fun p => (SandboxV2.json_success p.1, p.1.timeout_exceeded, p.1.exit_code,
        p.1.terminated_by_signal)) =
      Except.ok (true, true, 0, false) := by
  rfl

namespace Sandbox

/-- Helper: when every setrlimit call succeeds, run_limit_plan
succeeds and its trace is exactly one setLimit per enabled plan
entry, in order. -/
theorem run_limit_plan_all_ok (plan : List (Bool × Resource × Int)) (ok : Resource → Bool)
    (h : ∀ r, ok r = true) :
    run_limit_plan plan ok =
      ((plan.filter fun x => x.1).map fun x => ChildEvent.setLimit x.2.1 x.2.2 x.2.2,
        true) := by
  induction plan with
  | nil => rfl
  | cons hd tl ih =>
    obtain ⟨cond, res, v⟩ := hd
    by_cases hc : cond = true
    · simp [run_limit_plan, hc, h res, ih, List.filter_cons]
    · simp [run_limit_plan, hc, ih, List.filter_cons]

/-- Helper: every event run_limit_plan records is a setLimit call. -/
theorem run_limit_plan_events_are_setLimit (plan : List (Bool × Resource × Int))
    (ok : Resource → Bool) :
    ∀ e ∈ (run_limit_plan plan ok).1, ∃ r s h, e = ChildEvent.setLimit r s h := by
  induction plan with
  | nil => simp [run_limit_plan]
  | cons hd tl ih =>
    obtain ⟨cond, res, v⟩ := hd
    intro e he
    by_cases hc : cond = true
    · by_cases hok : ok res = true
      · simp [run_limit_plan, hc, hok] at he
        rcases he with he | he
        · exact ⟨res, v, v, he⟩
        · exact ih e he
      · simp [run_limit_plan, hc, hok] at he
        exact ⟨res, v, v, he⟩
    · exact ih e (by simpa [run_limit_plan, hc] using he)

/-- Claim C6: when disable_network is set, the child first sets the
no-new-privileges bit and only then installs the seccomp filter; the
installed filter denies exactly the six syscalls socket, connect,
sendto, sendmsg, recvfrom, recvmsg (x86_64 numbers 41, 42, 44, 46,
45, 47) with the errno action carrying EPERM, and default-allows
every other syscall number; and a failure of either prctl is
non-fatal: the child logs a warning and still execs the target. -/
theorem C6_network_filter_exact_and_nonfatal :
    (∀ nr : Nat, seccompVerdict nr =
        if nr ∈ [NR_socket, NR_connect, NR_sendto, NR_sendmsg, NR_recvfrom, NR_recvmsg]
        then some denyRet else some SECCOMP_RET_ALLOW)
    ∧ denyRet = SECCOMP_RET_ERRNO ||| EPERM
    ∧ (∀ nnpOk filterOk : Bool,
        (apply_network_seccomp nnpOk filterOk).1.head? = some ChildEvent.setNoNewPrivs)
    ∧ (∀ (l : ResourceLimits) (jail_enabled : Bool) (jail_path : CStr)
        (target : List CStr) (rlimOk : Resource → Bool) (nnpOk filterOk execOk : Bool),
        (apply_resource_limits l rlimOk).2 = true →
        nnpOk = false ∨ filterOk = false →
        ChildEvent.warnNetworkFilter ∈
          child_branch l jail_enabled jail_path true target rlimOk nnpOk filterOk execOk
        ∧ ChildEvent.execvp target ∈
          child_branch l jail_enabled jail_path true target rlimOk nnpOk filterOk execOk) := by
  refine ⟨?_, by decide, ?_, ?_⟩
  · intro nr
    by_cases h1 : nr = 41
    · subst h1
      simp [seccompVerdict, filter_program, runFilter.eq_def,
        NR_socket, NR_connect, NR_sendto, NR_sendmsg, NR_recvfrom, NR_recvmsg]
    by_cases h2 : nr = 42
    · subst h2
      simp [seccompVerdict, filter_program, runFilter.eq_def,
        NR_socket, NR_connect, NR_sendto, NR_sendmsg, NR_recvfrom, NR_recvmsg]
    by_cases h3 : nr = 44
    · subst h3
      simp [seccompVerdict, filter_program, runFilter.eq_def,
        NR_socket, NR_connect, NR_sendto, NR_sendmsg, NR_recvfrom, NR_recvmsg]
    by_cases h4 : nr = 46
    · subst h4
      simp [seccompVerdict, filter_program, runFilter.eq_def,
        NR_socket, NR_connect, NR_sendto, NR_sendmsg, NR_recvfrom, NR_recvmsg]
    by_cases h5 : nr = 45
    · subst h5
      simp [seccompVerdict, filter_program, runFilter.eq_def,
        NR_socket, NR_connect, NR_sendto, NR_sendmsg, NR_recvfrom, NR_recvmsg]
    by_cases h6 : nr = 47
    · subst h6
      simp [seccompVerdict, filter_program, runFilter.eq_def,
        NR_socket, NR_connect, NR_sendto, NR_sendmsg, NR_recvfrom, NR_recvmsg]
    simp [seccompVerdict, filter_program, runFilter.eq_def, h1, h2, h3, h4, h5, h6,
      NR_socket, NR_connect, NR_sendto, NR_sendmsg, NR_recvfrom, NR_recvmsg]
  · intro nnpOk filterOk
    cases nnpOk <;> cases filterOk <;> rfl
  · intro l jail_enabled jail_path target rlimOk nnpOk filterOk execOk hrl hfail
    rcases hfail with hf | hf <;> subst hf
    · constructor
      · simp [child_branch, hrl, apply_network_seccomp]
      · simp [child_branch, hrl, apply_network_seccomp]
    · cases nnpOk
      · constructor
        · simp [child_branch, hrl, apply_network_seccomp]
        · simp [child_branch, hrl, apply_network_seccomp]
      · constructor
        · simp [child_branch, hrl, apply_network_seccomp]
        · simp [child_branch, hrl, apply_network_seccomp]

/-- Witness for claim C6: with no resource limits, a failing seccomp
prctl, and target /bin/sh, the child logs the warning and still execs
the target. -/
theorem C6_network_filter_exact_and_nonfatal_witness :
    ChildEvent.warnNetworkFilter ∈
      child_branch { cpu_seconds := 0, memory_mb := 0, max_processes := 0, max_file_mb := 0 }
        false [] true ["/bin/sh".toList] (fun _ => true) true false true
    ∧ ChildEvent.execvp ["/bin/sh".toList] ∈
      child_branch { cpu_seconds := 0, memory_mb := 0, max_processes := 0, max_file_mb := 0 }
        false [] true ["/bin/sh".toList] (fun _ => true) true false true :=
  C6_network_filter_exact_and_nonfatal.2.2.2
    { cpu_seconds := 0, memory_mb := 0, max_processes := 0, max_file_mb := 0 }
    false [] ["/bin/sh".toList] (fun _ => true) true false true
    (by rfl) (Or.inr rfl)

/-- Claim C7: when every setrlimit call succeeds, the child installs,
for each of the four policy fields that is non-zero (all fields being
non-negative as the parser guarantees), exactly one setrlimit call on
the corresponding resource with soft = hard = the field value
(megabyte fields scaled by 2^20), and no call for a zero field; and
when some setrlimit call fails, the child exits with status 1 without
ever reaching execvp. -/
theorem C7_resource_limits_exact_and_fatal (l : ResourceLimits) (ok : Resource → Bool)
    (hc : 0 ≤ l.cpu_seconds) (hm : 0 ≤ l.memory_mb)
    (hp : 0 ≤ l.max_processes) (hf : 0 ≤ l.max_file_mb) :
    ((∀ r, ok r = true) →
      (apply_resource_limits l ok).2 = true
      ∧ (∀ r s h, ChildEvent.setLimit r s h ∈ (apply_resource_limits l ok).1 ↔
          (field_value l r ≠ 0 ∧ s = field_value l r ∧ h = field_value l r)))
    ∧ (∀ (jail_enabled : Bool) (jail_path : CStr) (disable_network : Bool)
        (target : List CStr) (nnpOk filterOk execOk : Bool),
        (apply_resource_limits l ok).2 = false →
        child_branch l jail_enabled jail_path disable_network target ok nnpOk filterOk execOk
          = (apply_resource_limits l ok).1 ++ [ChildEvent.exitWith 1]
        ∧ ChildEvent.exitWith 1 ∈
            child_branch l jail_enabled jail_path disable_network target ok nnpOk filterOk execOk
        ∧ ∀ t, ChildEvent.execvp t ∉
            child_branch l jail_enabled jail_path disable_network target ok nnpOk filterOk execOk) := by
  constructor
  · intro hok
    constructor
    · rw [apply_resource_limits, run_limit_plan_all_ok _ _ hok]
    · intro r s h
      rw [apply_resource_limits, run_limit_plan_all_ok _ _ hok]
      cases r <;>
        · simp only [limit_plan, List.filter_cons, List.filter_nil, decide_eq_true_eq]
          split_ifs <;>
            simp_all [field_value, ChildEvent.setLimit.injEq] <;> omega
  · intro jail_enabled jail_path disable_network target nnpOk filterOk execOk hfail
    have htr : child_branch l jail_enabled jail_path disable_network target ok nnpOk filterOk execOk
        = (apply_resource_limits l ok).1 ++ [ChildEvent.exitWith 1] := by
      simp [child_branch, hfail]
    refine ⟨htr, ?_, ?_⟩
    · rw [htr]; simp
    · intro t hmem
      rw [htr] at hmem
      rcases List.mem_append.mp hmem with hin | hin
      · obtain ⟨r, s, h, he⟩ := run_limit_plan_events_are_setLimit (limit_plan l) ok _ hin
        exact ChildEvent.noConfusion he
      · simp at hin

/-- Witness for claim C7: with cpu 2 s, memory 50 MB, file size 10 MB
and all setrlimit calls succeeding, the memory limit call installs
soft = hard = 50 * 2^20 bytes, and no process-count call is made for
the zero field. -/
theorem C7_resource_limits_exact_and_fatal_witness :
    ChildEvent.setLimit Resource.addressSpace 52428800 52428800 ∈
      (apply_resource_limits
        { cpu_seconds := 2, memory_mb := 50, max_processes := 0, max_file_mb := 10 }
        (fun _ => true)).1
    ∧ ¬ ChildEvent.setLimit Resource.nproc 0 0 ∈
      (apply_resource_limits
        { cpu_seconds := 2, memory_mb := 50, max_processes := 0, max_file_mb := 10 }
        (fun _ => true)).1 := by
  have h := (C7_resource_limits_exact_and_fatal
    { cpu_seconds := 2, memory_mb := 50, max_processes := 0, max_file_mb := 10 }
    (fun _ => true) (by decide) (by decide) (by decide) (by decide)).1 (fun _ => rfl)
  constructor
  · exact (h.2 Resource.addressSpace 52428800 52428800).mpr (by decide)
  · intro hmem
    have := (h.2 Resource.nproc 0 0).mp hmem
    simp [field_value] at this

end Sandbox

namespace SandboxV2

open ZenCube.Sandbox (Status SigNote signal_notes parent_exit_code SIGKILL SIGXCPU SIGXFSZ)

/-- Helper: the status analysis never touches memory_limit_exceeded. -/
theorem analyze_status_memory (st : Status) (r : sandbox_result_t) :
    (analyze_status st r).memory_limit_exceeded = r.memory_limit_exceeded := by
  cases st <;> first
    | rfl
    | (simp only [analyze_status]; split <;> rfl)

/-- Helper: the status analysis never touches timeout_exceeded. -/
theorem analyze_status_timeout (st : Status) (r : sandbox_result_t) :
    (analyze_status st r).timeout_exceeded = r.timeout_exceeded := by
  cases st <;> first
    | rfl
    | (simp only [analyze_status]; split <;> rfl)

/-- Helper: the status analysis sets cpu_limit_exceeded exactly when
the status is a termination by SIGXCPU (or the flag was already
set). -/
theorem analyze_status_cpu (st : Status) (r : sandbox_result_t) :
    (analyze_status st r).cpu_limit_exceeded =
      (r.cpu_limit_exceeded || decide (st.termSig = some SIGXCPU)) := by
  cases st with
  | signaled sig core =>
    by_cases hs : sig = SIGXCPU
    · simp [analyze_status, Status.termSig, hs]
    · simp [analyze_status, Status.termSig, hs]
  | exited code => simp [analyze_status, Status.termSig]
  | stopped sig => simp [analyze_status, Status.termSig]
  | unknown raw => simp [analyze_status, Status.termSig]

/-- Helper: the status analysis reports a signalled termination
exactly when the status is signalled (or the field was already
set). -/
theorem analyze_status_terminated (st : Status) (r : sandbox_result_t) :
    (analyze_status st r).terminated_by_signal =
      (r.terminated_by_signal || st.termSig.isSome) := by
  cases st with
  | signaled sig core =>
    by_cases hs : sig = SIGXCPU <;> simp [analyze_status, Status.termSig, hs]
  | exited code => simp [analyze_status, Status.termSig]
  | stopped sig => simp [analyze_status, Status.termSig]
  | unknown raw => simp [analyze_status, Status.termSig]

/-- Helper: recording the execution time changes no other field. -/
theorem set_execution_time_preserves (r : sandbox_result_t) (env : RunEnv) :
    (set_execution_time r env).exit_code = r.exit_code
    ∧ (set_execution_time r env).terminated_by_signal = r.terminated_by_signal
    ∧ (set_execution_time r env).cpu_limit_exceeded = r.cpu_limit_exceeded
    ∧ (set_execution_time r env).memory_limit_exceeded = r.memory_limit_exceeded
    ∧ (set_execution_time r env).timeout_exceeded = r.timeout_exceeded := by
  cases h : env.endClock <;> simp [set_execution_time, h]

/-- Helper: every successful wait phase starts from the initial
result, at most with the timeout flag raised. -/
theorem wait_phase_ok_inv (config : sandbox_config_t) (env : RunEnv)
    (r1 : sandbox_result_t) (st : Status) (tr : List ParentEvent)
    (h : wait_phase config env = .ok (r1, st, tr)) :
    r1 = initial_result ∨ r1 = { initial_result with timeout_exceeded := true } := by
  by_cases hT : 0 < config.timeout_seconds
  · simp only [wait_phase, if_pos hT] at h
    rcases hp : (poll_loop env.polls 0 config.timeout_seconds.toNat).1 with u | os
    · rw [hp] at h; exact absurd h (by simp)
    · rcases os with _ | st'
      · rw [hp] at h
        simp only [Except.ok.injEq, Prod.mk.injEq] at h
        exact Or.inr h.1.symm
      · rw [hp] at h
        simp only [Except.ok.injEq, Prod.mk.injEq] at h
        exact Or.inl h.1.symm
  · simp only [wait_phase, if_neg hT] at h
    cases hb : env.blockingWaitOk
    · rw [hb] at h; exact absurd h (by simp)
    · rw [hb] at h
      simp only [if_true, Except.ok.injEq, Prod.mk.injEq] at h
      exact Or.inl h.1.symm

/-- Helper: every result a successful run_sandbox emits is the status
analysis of a reachable base result. -/
theorem run_sandbox_ok_shape (config : sandbox_config_t) (env : RunEnv)
    (r : sandbox_result_t) (tr : List ParentEvent)
    (h : run_sandbox config env = .ok (r, tr)) :
    ∃ st r1, wait_phase config env = .ok (r1, st, tr)
      ∧ r = analyze_status st (set_execution_time r1 env) := by
  unfold run_sandbox at h
  rcases hw : wait_phase config env with u | ⟨r1, st, tr'⟩
  · rw [hw] at h; exact absurd h (by simp)
  · rw [hw] at h
    simp only [Except.ok.injEq, Prod.mk.injEq] at h
    exact ⟨st, r1, by rw [h.2], h.1.symm⟩

end SandboxV2

/-- Claim C2 (amended): in sandbox_v2, the only variant that records
violation flags, the status analysis derives cpu_limit_exceeded
exactly from a termination by SIGXCPU; memory_limit_exceeded is never
set on any run (in particular not by SIGKILL under a non-zero memory
limit), and the result carries no file-size flag at all.  sandbox.c
derives no flags from signals either: its signal branch only logs
messages, logging the possibly-memory line exactly for SIGKILL (with
the limit value exactly when memory_mb is non-zero) and the file-size
line exactly for SIGXFSZ. -/
theorem C2_amended_flag_derivation :
    (∀ (config : SandboxV2.sandbox_config_t) (env : SandboxV2.RunEnv)
        (r : SandboxV2.sandbox_result_t) (tr : List SandboxV2.ParentEvent),
        SandboxV2.run_sandbox config env = .ok (r, tr) →
        r.memory_limit_exceeded = false)
    ∧ (∀ (st : Sandbox.Status) (r : SandboxV2.sandbox_result_t),
        (SandboxV2.analyze_status st r).cpu_limit_exceeded =
          (r.cpu_limit_exceeded || decide (st.termSig = some Sandbox.SIGXCPU)))
    ∧ (∀ (sig : Int) (l : Sandbox.ResourceLimits),
        Sandbox.SigNote.killedPossiblyMemory ∈ Sandbox.signal_notes sig l ↔
          sig = Sandbox.SIGKILL)
    ∧ (∀ (sig : Int) (l : Sandbox.ResourceLimits),
        Sandbox.SigNote.memoryLimitWas l.memory_mb ∈ Sandbox.signal_notes sig l ↔
          (sig = Sandbox.SIGKILL ∧ 0 < l.memory_mb))
    ∧ (∀ (sig : Int) (l : Sandbox.ResourceLimits),
        Sandbox.SigNote.fileSizeLimitViolated ∈ Sandbox.signal_notes sig l ↔
          sig = Sandbox.SIGXFSZ)
    ∧ (∀ (sig : Int) (l : Sandbox.ResourceLimits),
        Sandbox.SigNote.cpuLimitViolated ∈ Sandbox.signal_notes sig l ↔
          sig = Sandbox.SIGXCPU) := by
  refine ⟨?_, SandboxV2.analyze_status_cpu, ?_, ?_, ?_, ?_⟩
  · intro config env r tr h
    obtain ⟨st, r1, hw, hr⟩ := SandboxV2.run_sandbox_ok_shape config env r tr h
    rw [hr, SandboxV2.analyze_status_memory,
      (SandboxV2.set_execution_time_preserves r1 env).2.2.2.1]
    rcases SandboxV2.wait_phase_ok_inv config env r1 st tr hw with h1 | h1 <;>
      rw [h1] <;> rfl
  · intro sig l
    unfold Sandbox.signal_notes
    split_ifs <;>
      simp_all [Sandbox.SIGXCPU, Sandbox.SIGKILL, Sandbox.SIGXFSZ]
  · intro sig l
    unfold Sandbox.signal_notes
    split_ifs <;>
      simp_all [Sandbox.SIGXCPU, Sandbox.SIGKILL, Sandbox.SIGXFSZ]
  · intro sig l
    unfold Sandbox.signal_notes
    split_ifs <;>
      simp_all [Sandbox.SIGXCPU, Sandbox.SIGKILL, Sandbox.SIGXFSZ]
  · intro sig l
    unfold Sandbox.signal_notes
    split_ifs <;>
      simp_all [Sandbox.SIGXCPU, Sandbox.SIGKILL, Sandbox.SIGXFSZ]

/-- Witness for claim C2: the run of the C2 counterexample
(SIGKILL termination, memory limit 256 MB) indeed reports
memory_limit_exceeded = false, by the amended theorem. -/
theorem C2_amended_flag_derivation_witness :
    (SandboxV2.analyze_status (Sandbox.Status.signaled 9 false)
      (SandboxV2.set_execution_time SandboxV2.initial_result
        { polls := fun _ => SandboxV2.PollResult.running
          blockingWaitOk := true
          blockingStatus := Sandbox.Status.signaled 9 false
          reapAfterKillStatus := Sandbox.Status.exited 0
          startClock := none
          endClock := none
          startGarbage := { tv_sec := 0, tv_nsec := 0 } })).memory_limit_exceeded = false :=
  C2_amended_flag_derivation.1
    { cpu_limit_seconds := 0, memory_limit_mb := 256, timeout_seconds := 0,
      json_output := true }
    { polls := fun _ => SandboxV2.PollResult.running
      blockingWaitOk := true
      blockingStatus := Sandbox.Status.signaled 9 false
      reapAfterKillStatus := Sandbox.Status.exited 0
      startClock := none
      endClock := none
      startGarbage := { tv_sec := 0, tv_nsec := 0 } }
    _ _ rfl

/-- Claim C3 (amended): sandbox.c propagates the child exit code: its
supervisor exit equals k on a normal child exit with code k and is
EXIT_FAILURE = 1 on a signalled, stopped or unknown status.
sandbox_v2 does not propagate: its supervisor exits 0 exactly when
the child exited normally with code 0 and exits 1 in every other
case (including parse failures and waitpid failures), so its exit
equals the child code k only when k is 0 or 1. -/
theorem C3_amended_exit_code_mapping :
    (∀ k : Int, Sandbox.parent_exit_code (Sandbox.Status.exited k) = k)
    ∧ (∀ (sig : Int) (core : Bool),
        Sandbox.parent_exit_code (Sandbox.Status.signaled sig core) = 1)
    ∧ (∀ sig : Int, Sandbox.parent_exit_code (Sandbox.Status.stopped sig) = 1)
    ∧ (∀ raw : Int, Sandbox.parent_exit_code (Sandbox.Status.unknown raw) = 1)
    ∧ (∀ r : SandboxV2.sandbox_result_t,
        SandboxV2.main_exit_code r = 0 ↔
          (r.terminated_by_signal = false ∧ r.exit_code = 0))
    ∧ (∀ r : SandboxV2.sandbox_result_t,
        SandboxV2.main_exit_code r = 0 ∨ SandboxV2.main_exit_code r = 1)
    ∧ (∀ run : Except Unit SandboxV2.sandbox_result_t,
        SandboxV2.main_overall_exit false run = 1)
    ∧ (∀ p : Bool, SandboxV2.main_overall_exit p (Except.error ()) = 1) := by
  refine ⟨fun k => rfl, fun sig core => rfl, fun sig => rfl, fun raw => rfl,
    ?_, ?_, fun run => rfl, ?_⟩
  · intro r
    by_cases ht : r.terminated_by_signal
    · simp [SandboxV2.main_exit_code, ht]
    · by_cases he : r.exit_code = 0
      · simp [SandboxV2.main_exit_code, ht, he]
      · simp [SandboxV2.main_exit_code, ht, he]
  · intro r
    by_cases ht : r.terminated_by_signal
    · right; simp [SandboxV2.main_exit_code, ht]
    · by_cases he : r.exit_code = 0
      · left; simp [SandboxV2.main_exit_code, ht, he]
      · right; simp [SandboxV2.main_exit_code, ht, he]
  · intro p
    cases p <;> rfl

/-- Claim C4 (amended): the success field emitted by log_json_result
is true exactly when the child exited normally with code 0 and was
not terminated by a signal; the violation flags are not consulted.
Because the cpu flag is only ever set on a signalled termination,
success = true does exclude cpu_limit_exceeded on every reachable
result; the timeout flag, however, can be set on a successful-looking
run (see the counterexample). -/
theorem C4_amended_success_field (r : SandboxV2.sandbox_result_t) :
    (SandboxV2.json_success r = true ↔
      (r.exit_code = 0 ∧ r.terminated_by_signal = false))
    ∧ (∀ (config : SandboxV2.sandbox_config_t) (env : SandboxV2.RunEnv)
        (tr : List SandboxV2.ParentEvent),
        SandboxV2.run_sandbox config env = .ok (r, tr) →
        r.cpu_limit_exceeded = true →
        SandboxV2.json_success r = false) := by
  constructor
  · simp [SandboxV2.json_success]
  · intro config env tr h hcpu
    obtain ⟨st, r1, hw, hr⟩ := SandboxV2.run_sandbox_ok_shape config env r tr h
    have hpre := SandboxV2.set_execution_time_preserves r1 env
    have hbase : r1.cpu_limit_exceeded = false ∧ r1.terminated_by_signal = false := by
      rcases SandboxV2.wait_phase_ok_inv config env r1 st tr hw with h1 | h1 <;>
        rw [h1] <;> exact ⟨rfl, rfl⟩
    rw [hr, SandboxV2.analyze_status_cpu, hpre.2.2.1, hbase.1] at hcpu
    simp only [Bool.false_or, decide_eq_true_eq] at hcpu
    have hterm : (SandboxV2.analyze_status st
        (SandboxV2.set_execution_time r1 env)).terminated_by_signal = true := by
      rw [SandboxV2.analyze_status_terminated, hpre.2.1, hbase.2, hcpu]
      rfl
    rw [hr]
    simp [SandboxV2.json_success, hterm]

/-- Witness for claim C4: a run reaped with a SIGXCPU termination has
the cpu flag set and success = false, by the amended theorem. -/
theorem C4_amended_success_field_witness :
    SandboxV2.json_success
      (SandboxV2.analyze_status (Sandbox.Status.signaled 24 false)
        (SandboxV2.set_execution_time SandboxV2.initial_result
          { polls := fun _ => SandboxV2.PollResult.running
            blockingWaitOk := true
            blockingStatus := Sandbox.Status.signaled 24 false
            reapAfterKillStatus := Sandbox.Status.exited 0
            startClock := none
            endClock := none
            startGarbage := { tv_sec := 0, tv_nsec := 0 } })) = false :=
  (C4_amended_success_field _).2
    { cpu_limit_seconds := 0, memory_limit_mb := 0, timeout_seconds := 0,
      json_output := true }
    { polls := fun _ => SandboxV2.PollResult.running
      blockingWaitOk := true
      blockingStatus := Sandbox.Status.signaled 24 false
      reapAfterKillStatus := Sandbox.Status.exited 0
      startClock := none
      endClock := none
      startGarbage := { tv_sec := 0, tv_nsec := 0 } }
    [SandboxV2.ParentEvent.reapBlocking] rfl rfl

namespace SandboxV2

/-- Helper: when the child is still running at every poll up to the
bound, the polling loop ends with ok none after one poll and one
sleep per second of the bound. -/
theorem poll_loop_all_running (polls : Nat → PollResult) (fuel : Nat) :
    ∀ count : Nat, (∀ j, j < fuel → polls (count + j) = .running) →
    poll_loop polls count fuel =
      (Except.ok none,
        (List.range' count fuel).flatMap
          fun i => [ParentEvent.pollNonBlocking i, ParentEvent.sleepOneSecond]) := by
  induction fuel with
  | zero => intro count h; rfl
  | succ n ih =>
    intro count h
    have h0 : polls count = .running := by simpa using h 0 (Nat.succ_pos n)
    have hrec := ih (count + 1) (fun j hj => by
      rw [show count + 1 + j = count + (j + 1) by omega]
      exact h (j + 1) (by omega))
    simp only [poll_loop, h0, hrec, List.range']
    simp

/-- Helper: when the child is reaped at poll i (after i running
polls), the polling loop ends with ok (some status), one poll and one
sleep per elapsed second and a final poll, and no kill. -/
theorem poll_loop_reaped (polls : Nat → PollResult) (st : Sandbox.Status) (i : Nat) :
    ∀ fuel count : Nat, i < fuel → polls (count + i) = .reaped st →
    (∀ j, j < i → polls (count + j) = .running) →
    poll_loop polls count fuel =
      (Except.ok (some st),
        ((List.range' count i).flatMap
          fun x => [ParentEvent.pollNonBlocking x, ParentEvent.sleepOneSecond])
          ++ [ParentEvent.pollNonBlocking (count + i)]) := by
  induction i with
  | zero =>
    intro fuel count hi hst hrun
    match fuel, hi with
    | n + 1, _ =>
      rw [show count + 0 = count from rfl] at hst
      simp [poll_loop, hst, List.range']
  | succ m ih =>
    intro fuel count hi hst hrun
    match fuel, hi with
    | n + 1, _ =>
      have h0 : polls count = .running := hrun 0 (Nat.succ_pos m)
      have hrec := ih n (count + 1) (by omega)
        (by rw [show count + 1 + m = count + (m + 1) by omega]; exact hst)
        (fun j hj => by
          rw [show count + 1 + j = count + (j + 1) by omega]
          exact hrun (j + 1) (by omega))
      simp only [poll_loop, h0, hrec, List.range']
      simp [show count + 1 + m = count + (m + 1) by omega]

end SandboxV2

/-- Claim C8: in sandbox_v2, with a wall-clock timeout T > 0
configured, the parent polls the child once per second with a
non-blocking waitpid; if all T polls find the child still running,
the parent sends SIGKILL, reaps it with a blocking wait, and the
emitted result has timeout_exceeded = true; if some poll i < T finds
the child terminated, no kill is ever sent and timeout_exceeded stays
false. -/
theorem C8_timeout_poll_kill_reap (config : SandboxV2.sandbox_config_t)
    (env : SandboxV2.RunEnv) (T : Nat)
    (hT : config.timeout_seconds.toNat = T) (hpos : 0 < config.timeout_seconds) :
    ((∀ j, j < T → env.polls j = .running) →
      ∃ r, SandboxV2.run_sandbox config env =
          .ok (r, ((List.range' 0 T).flatMap
              fun i => [SandboxV2.ParentEvent.pollNonBlocking i,
                SandboxV2.ParentEvent.sleepOneSecond])
            ++ [SandboxV2.ParentEvent.killChild Sandbox.SIGKILL,
              SandboxV2.ParentEvent.reapBlocking])
        ∧ r.timeout_exceeded = true)
    ∧ (∀ (i : Nat) (st : Sandbox.Status), i < T → env.polls i = .reaped st →
        (∀ j, j < i → env.polls j = .running) →
        ∃ r, SandboxV2.run_sandbox config env =
            .ok (r, ((List.range' 0 i).flatMap
                fun x => [SandboxV2.ParentEvent.pollNonBlocking x,
                  SandboxV2.ParentEvent.sleepOneSecond])
              ++ [SandboxV2.ParentEvent.pollNonBlocking i])
          ∧ r.timeout_exceeded = false
          ∧ SandboxV2.ParentEvent.killChild Sandbox.SIGKILL ∉
              (((List.range' 0 i).flatMap
                fun x => [SandboxV2.ParentEvent.pollNonBlocking x,
                  SandboxV2.ParentEvent.sleepOneSecond])
                ++ [SandboxV2.ParentEvent.pollNonBlocking i])) := by
  constructor
  · intro hrun
    have hpoll := SandboxV2.poll_loop_all_running env.polls T 0
      (fun j hj => by simpa using hrun j hj)
    have hwp : SandboxV2.wait_phase config env =
        .ok ({ SandboxV2.initial_result with timeout_exceeded := true },
          env.reapAfterKillStatus,
          ((List.range' 0 T).flatMap
              fun i => [SandboxV2.ParentEvent.pollNonBlocking i,
                SandboxV2.ParentEvent.sleepOneSecond])
            ++ [SandboxV2.ParentEvent.killChild Sandbox.SIGKILL,
              SandboxV2.ParentEvent.reapBlocking]) := by
      unfold SandboxV2.wait_phase
      rw [if_pos hpos, hT, hpoll]
    refine ⟨SandboxV2.analyze_status env.reapAfterKillStatus
      (SandboxV2.set_execution_time
        { SandboxV2.initial_result with timeout_exceeded := true } env), ?_, ?_⟩
    · unfold SandboxV2.run_sandbox
      rw [hwp]
    · rw [SandboxV2.analyze_status_timeout,
        (SandboxV2.set_execution_time_preserves _ env).2.2.2.2]
  · intro i st hi hst hrunbefore
    have hpoll := SandboxV2.poll_loop_reaped env.polls st i
      config.timeout_seconds.toNat 0 (by omega)
      (by simpa using hst) (fun j hj => by simpa using hrunbefore j hj)
    have hwp : SandboxV2.wait_phase config env =
        .ok (SandboxV2.initial_result, st,
          ((List.range' 0 i).flatMap
              fun x => [SandboxV2.ParentEvent.pollNonBlocking x,
                SandboxV2.ParentEvent.sleepOneSecond])
            ++ [SandboxV2.ParentEvent.pollNonBlocking (0 + i)]) := by
      unfold SandboxV2.wait_phase
      rw [if_pos hpos, hpoll]
    refine ⟨SandboxV2.analyze_status st
      (SandboxV2.set_execution_time SandboxV2.initial_result env), ?_, ?_, ?_⟩
    · unfold SandboxV2.run_sandbox
      rw [hwp]
      simp
    · rw [SandboxV2.analyze_status_timeout,
        (SandboxV2.set_execution_time_preserves _ env).2.2.2.2]
      rfl
    · intro hmem
      rcases List.mem_append.mp hmem with hin | hin
      · rcases List.mem_flatMap.mp hin with ⟨x, _, hx⟩
        simp at hx
      · simp at hin

/-- Witness for claim C8: with a 2-second timeout, a child reaped at
the second poll (one running poll, then an exit with code 0) leaves
timeout_exceeded false and the trace free of any kill. -/
theorem C8_timeout_poll_kill_reap_witness :
    ∃ r, SandboxV2.run_sandbox
        { cpu_limit_seconds := 0, memory_limit_mb := 0, timeout_seconds := 2,
          json_output := true }
        { polls := fun i => if i = 0 then SandboxV2.PollResult.running
            else SandboxV2.PollResult.reaped (Sandbox.Status.exited 0)
          blockingWaitOk := true
          blockingStatus := Sandbox.Status.exited 0
          reapAfterKillStatus := Sandbox.Status.exited 0
          startClock := none
          endClock := none
          startGarbage := { tv_sec := 0, tv_nsec := 0 } } =
        .ok (r, ((List.range' 0 1).flatMap
            fun x => [SandboxV2.ParentEvent.pollNonBlocking x,
              SandboxV2.ParentEvent.sleepOneSecond])
          ++ [SandboxV2.ParentEvent.pollNonBlocking 1])
      ∧ r.timeout_exceeded = false
      ∧ SandboxV2.ParentEvent.killChild Sandbox.SIGKILL ∉
          (((List.range' 0 1).flatMap
            fun x => [SandboxV2.ParentEvent.pollNonBlocking x,
              SandboxV2.ParentEvent.sleepOneSecond])
            ++ [SandboxV2.ParentEvent.pollNonBlocking 1]) :=
  (C8_timeout_poll_kill_reap
    { cpu_limit_seconds := 0, memory_limit_mb := 0, timeout_seconds := 2,
      json_output := true }
    { polls := fun i => if i = 0 then SandboxV2.PollResult.running
        else SandboxV2.PollResult.reaped (Sandbox.Status.exited 0)
      blockingWaitOk := true
      blockingStatus := Sandbox.Status.exited 0
      reapAfterKillStatus := Sandbox.Status.exited 0
      startClock := none
      endClock := none
      startGarbage := { tv_sec := 0, tv_nsec := 0 } }
    2 rfl (by decide)).2 1 (Sandbox.Status.exited 0) (by decide) rfl
    (fun j hj => by interval_cases j; rfl)

namespace Sandbox

/-- Claim C9: when a jail was requested and a target command is
present, main validates the jail path before fork: a failing realpath,
stat, directory check or access check makes main return EXIT_FAILURE
before the fork, with a diagnostic carrying the jail path (original
for realpath, canonicalised for the later checks), and no child
process is created; when every check passes, main reaches the fork
carrying the canonicalised path. -/
theorem C9_jail_validation_before_fork (args : List CStr) (env : JailEnv)
    (st : ParseState) (tgt : List CStr)
    (hp : parse_arguments args = .ok st tgt)
    (hj : st.jail_enabled = true) (ht : tgt ≠ []) :
    (env.realpathResult = none →
      main_prefork args env = .failBeforeFork (Diag.unableToResolveJail st.jail_path)
      ∧ (main_prefork args env).spawnsChild = false
      ∧ (Diag.unableToResolveJail st.jail_path).mentionedPath = some st.jail_path)
    ∧ (∀ rp, env.realpathResult = some rp → env.statOk = false →
      main_prefork args env = .failBeforeFork (Diag.cannotStatJail rp)
      ∧ (main_prefork args env).spawnsChild = false
      ∧ (Diag.cannotStatJail rp).mentionedPath = some rp)
    ∧ (∀ rp, env.realpathResult = some rp → env.statOk = true → env.statIsDir = false →
      main_prefork args env = .failBeforeFork (Diag.jailNotDirectory rp)
      ∧ (main_prefork args env).spawnsChild = false
      ∧ (Diag.jailNotDirectory rp).mentionedPath = some rp)
    ∧ (∀ rp, env.realpathResult = some rp → env.statOk = true → env.statIsDir = true →
      env.accessXOk = false →
      main_prefork args env = .failBeforeFork (Diag.jailNotAccessible rp)
      ∧ (main_prefork args env).spawnsChild = false
      ∧ (Diag.jailNotAccessible rp).mentionedPath = some rp)
    ∧ (∀ rp, env.realpathResult = some rp → env.statOk = true → env.statIsDir = true →
      env.accessXOk = true →
      main_prefork args env =
        .forkReached st.limits true rp st.disable_network tgt) := by
  refine ⟨?_, ?_, ?_, ?_, ?_⟩
  · intro hrp
    have hmain : main_prefork args env =
        .failBeforeFork (Diag.unableToResolveJail st.jail_path) := by
      simp [main_prefork, hp, ht, hj, hrp]
    exact ⟨hmain, by rw [hmain]; rfl, rfl⟩
  · intro rp hrp hs
    have hmain : main_prefork args env =
        .failBeforeFork (Diag.cannotStatJail rp) := by
      simp [main_prefork, hp, ht, hj, hrp, hs]
    exact ⟨hmain, by rw [hmain]; rfl, rfl⟩
  · intro rp hrp hs hd
    have hmain : main_prefork args env =
        .failBeforeFork (Diag.jailNotDirectory rp) := by
      simp [main_prefork, hp, ht, hj, hrp, hs, hd]
    exact ⟨hmain, by rw [hmain]; rfl, rfl⟩
  · intro rp hrp hs hd ha
    have hmain : main_prefork args env =
        .failBeforeFork (Diag.jailNotAccessible rp) := by
      simp [main_prefork, hp, ht, hj, hrp, hs, hd, ha]
    exact ⟨hmain, by rw [hmain]; rfl, rfl⟩
  · intro rp hrp hs hd ha
    simp [main_prefork, hp, ht, hj, hrp, hs, hd, ha]

/-- Witness for claim C9: the invocation with jail /nonexistent and
target /bin/true, in an environment where realpath fails, exits with
the resolve diagnostic naming /nonexistent, and spawns no child. -/
theorem C9_jail_validation_before_fork_witness :
    main_prefork ["--jail=/nonexistent".toList, "/bin/true".toList]
        { realpathResult := none, statOk := false, statIsDir := false,
          accessXOk := false } =
      .failBeforeFork (Diag.unableToResolveJail "/nonexistent".toList)
    ∧ (main_prefork ["--jail=/nonexistent".toList, "/bin/true".toList]
        { realpathResult := none, statOk := false, statIsDir := false,
          accessXOk := false }).spawnsChild = false := by
  have h := (C9_jail_validation_before_fork
    ["--jail=/nonexistent".toList, "/bin/true".toList]
    { realpathResult := none, statOk := false, statIsDir := false, accessXOk := false }
    { limits := { cpu_seconds := 0, memory_mb := 0, max_processes := 0, max_file_mb := 0 }
      jail_enabled := true
      jail_path := "/nonexistent".toList
      disable_network := false }
    ["/bin/true".toList] rfl rfl (by decide)).1 rfl
  exact ⟨h.1, h.2.1⟩

/-- Claim C5 (amended): the parser fails with a diagnostic on an
unknown option, a negative numeric value, an empty jail= value, or a
jail path of PATH_MAX or more characters; main additionally fails
before fork when no target command remains, and a parse failure also
reaches the fork in no run.  A non-numeric value, however, is not
rejected: atoi silently coerces it (to its leading-digit value, 0
when there is none), as the counterexample shows. -/
theorem C5_amended_parse_failures :
    (∀ (v : CStr) (rest : List CStr) (st : ParseState), atoi v < 0 →
      parse_options_loop (("--cpu=".toList ++ v) :: rest) st = .err "Invalid CPU limit")
    ∧ (∀ (v : CStr) (rest : List CStr) (st : ParseState), atoi v < 0 →
      parse_options_loop (("--mem=".toList ++ v) :: rest) st = .err "Invalid memory limit")
    ∧ (∀ (v : CStr) (rest : List CStr) (st : ParseState), atoi v < 0 →
      parse_options_loop (("--procs=".toList ++ v) :: rest) st = .err "Invalid process limit")
    ∧ (∀ (v : CStr) (rest : List CStr) (st : ParseState), atoi v < 0 →
      parse_options_loop (("--fsize=".toList ++ v) :: rest) st =
        .err "Invalid file size limit")
    ∧ (∀ (rest : List CStr) (st : ParseState),
      parse_options_loop ("--jail=".toList :: rest) st =
        .err "jail requires a non-empty path")
    ∧ (∀ (p : CStr) (rest : List CStr) (st : ParseState), p ≠ [] →
      PATH_MAX ≤ p.length →
      parse_options_loop (("--jail=".toList ++ p) :: rest) st =
        .err "Jail path is too long")
    ∧ (∀ (tok : CStr) (rest : List CStr) (st : ParseState),
      tok.head? = some '-' →
      tok ≠ "--".toList → tok ≠ "--help".toList →
      "--cpu=".toList.isPrefixOf tok = false →
      "--mem=".toList.isPrefixOf tok = false →
      "--procs=".toList.isPrefixOf tok = false →
      "--fsize=".toList.isPrefixOf tok = false →
      "--jail=".toList.isPrefixOf tok = false →
      tok ≠ "--no-net".toList →
      parse_options_loop (tok :: rest) st = .err "Unknown option")
    ∧ (∀ (args : List CStr) (env : JailEnv) (m : String),
      parse_arguments args = .err m →
      main_prefork args env = .failBeforeFork (Diag.parseError m)
      ∧ (main_prefork args env).spawnsChild = false)
    ∧ (∀ (args : List CStr) (env : JailEnv) (st : ParseState),
      parse_arguments args = .ok st [] →
      main_prefork args env = .failBeforeFork Diag.noCommand
      ∧ (main_prefork args env).spawnsChild = false) := by
  refine ⟨?_, ?_, ?_, ?_, ?_, ?_, ?_, ?_, ?_⟩
  · intro v rest st hv
    have htok : ("--cpu=".toList ++ v) = '-' :: '-' :: 'c' :: 'p' :: 'u' :: '=' :: v := rfl
    rw [htok]
    simp only [parse_options_loop]
    simp [hv, List.isPrefixOf]
  · intro v rest st hv
    have htok : ("--mem=".toList ++ v) = '-' :: '-' :: 'm' :: 'e' :: 'm' :: '=' :: v := rfl
    rw [htok]
    simp only [parse_options_loop]
    simp [hv, List.isPrefixOf]
  · intro v rest st hv
    have htok : ("--procs=".toList ++ v) =
      '-' :: '-' :: 'p' :: 'r' :: 'o' :: 'c' :: 's' :: '=' :: v := rfl
    rw [htok]
    simp only [parse_options_loop]
    simp [hv, List.isPrefixOf]
  · intro v rest st hv
    have htok : ("--fsize=".toList ++ v) =
      '-' :: '-' :: 'f' :: 's' :: 'i' :: 'z' :: 'e' :: '=' :: v := rfl
    rw [htok]
    simp only [parse_options_loop]
    simp [hv, List.isPrefixOf]
  · intro rest st
    rfl
  · intro p rest st hne hlen
    have htok : ("--jail=".toList ++ p) =
      '-' :: '-' :: 'j' :: 'a' :: 'i' :: 'l' :: '=' :: p := rfl
    rw [htok]
    simp only [parse_options_loop]
    simp [List.isPrefixOf, List.length_eq_zero, hne, hlen]
  · intro tok rest st h1 h2 h3 h4 h5 h6 h7 h8 h9
    simp_all [parse_options_loop]
  · intro args env m hm
    have hmain : main_prefork args env = .failBeforeFork (Diag.parseError m) := by
      simp [main_prefork, hm]
    exact ⟨hmain, by rw [hmain]; rfl⟩
  · intro args env st hok
    have hmain : main_prefork args env = .failBeforeFork Diag.noCommand := by
      simp [main_prefork, hok]
    exact ⟨hmain, by rw [hmain]; rfl⟩

/-- Witness for claim C5: a negative cpu value fails with the CPU
diagnostic, an unknown option fails with the unknown-option
diagnostic, and an invocation with options but no command fails
before fork with the no-command diagnostic. -/
theorem C5_amended_parse_failures_witness :
    parse_options_loop [("--cpu=".toList ++ "-1".toList)] initial_parse_state =
      .err "Invalid CPU limit"
    ∧ parse_options_loop ["--bogus".toList] initial_parse_state = .err "Unknown option"
    ∧ main_prefork ["--no-net".toList]
        { realpathResult := none, statOk := false, statIsDir := false,
          accessXOk := false } = .failBeforeFork Diag.noCommand :=
  ⟨C5_amended_parse_failures.1 "-1".toList [] initial_parse_state (by decide),
    C5_amended_parse_failures.2.2.2.2.2.2.1 "--bogus".toList [] initial_parse_state
      rfl (by decide) (by decide) rfl rfl rfl rfl rfl (by decide),
    (C5_amended_parse_failures.2.2.2.2.2.2.2.2 ["--no-net".toList]
      { realpathResult := none, statOk := false, statIsDir := false, accessXOk := false }
      { limits := { cpu_seconds := 0, memory_mb := 0, max_processes := 0, max_file_mb := 0 }
        jail_enabled := false
        jail_path := []
        disable_network := true }
      rfl).1⟩

end Sandbox

end ZenCube
